import Mathlib

/-!
# BYD safety mode (`opendbc/safety/modes/byd.h`)

A shallow embedding of the BYD safety hooks: counter / checksum extraction,
the nibble-sum checksum, the receive hook that tracks vehicle state and the
transmit hook.  Machine integers are natural numbers with explicit reduction
modulo `2 ^ w`; the globals written by the receive hook are gathered in an
explicit `VehicleState` record that is passed in and returned.
-/

namespace Byd

/-! ## Frames and the accessors of `safety_declarations.h` -/

/-- Modelled from the spec: the frame type `CANPacket_t` is declared outside
`byd.h`.  A frame has an address, a bus index, a declared payload length and a
byte buffer; cells of the buffer are read modulo 256 and a cell that is absent
from the list reads as zero. -/
structure CANPacket_t where
  addr : Nat
  bus : Nat
  len : Nat
  data : List Nat
deriving DecidableEq, Repr

/-- Modelled from the spec: accessor macro `GET_ADDR`, the frame address. -/
def GET_ADDR (msg : CANPacket_t) : Nat := msg.addr

/-- Modelled from the spec: accessor macro `GET_BUS`, the bus index. -/
def GET_BUS (msg : CANPacket_t) : Nat := msg.bus

/-- Modelled from the spec: accessor macro `GET_LEN`, the declared payload
length. -/
def GET_LEN (msg : CANPacket_t) : Nat := msg.len

/-- Modelled from the spec: accessor macro `GET_BYTE`, payload byte `i` as an
unsigned 8-bit value. -/
def GET_BYTE (msg : CANPacket_t) (i : Nat) : Nat := msg.data.getD i 0 % 256

/-- Modelled from the spec: accessor macro `GET_BIT`, bit `b` of the payload,
counted from the least significant bit of byte 0 (bit `b % 8` of byte
`b / 8`). -/
def GET_BIT (msg : CANPacket_t) (b : Nat) : Bool :=
  ((GET_BYTE msg (b / 8) >>> (b % 8)) &&& 1) != 0

/-- Modelled from the spec: helper `GET_BYTES`, the `len` payload bytes from
index `start` read as one little-endian unsigned 32-bit value
(`byte[start] + 256 * byte[start + 1] + ...`). -/
def GET_BYTES (msg : CANPacket_t) (start len : Nat) : Nat :=
  ((List.range len).foldl
    (fun ret i => ret + GET_BYTE msg (start + i) * 2 ^ (i * 8)) 0) % 2 ^ 32

/-- Modelled from the spec: helper `to_signed`, the two's complement reading
of the low `bits` bits of `d`. -/
def to_signed (d : Int) (bits : Nat) : Int :=
  if d ≥ 2 ^ (bits - 1) then d - 2 ^ bits else d

/-! ## Constant tables -/

/-- The kinds of steering limit (`.type` of `TorqueSteeringLimits`). -/
inductive SteeringControlType where
  | TorqueMotorLimited
  | TorqueDriverLimited
deriving DecidableEq, Repr

/-- The record filled in by the `BYD_LIMITS` macro. -/
structure TorqueSteeringLimits where
  max_torque : Int
  max_rate_up : Int
  max_rate_down : Int
  max_rt_delta : Int
  driver_torque_allowance : Int
  driver_torque_multiplier : Int
  type : SteeringControlType
  min_valid_request_frames : Nat
  max_invalid_request_frames : Nat
  min_valid_request_rt_interval : Nat
  has_steer_req_tolerance : Bool
deriving DecidableEq, Repr

/-- Macro `BYD_LIMITS(steer, rate_up, rate_down)`. -/
def BYD_LIMITS (steer rate_up rate_down : Int) : TorqueSteeringLimits :=
  { max_torque := steer
    max_rate_up := rate_up
    max_rate_down := rate_down
    max_rt_delta := 375
    driver_torque_allowance := 68
    driver_torque_multiplier := 3
    type := SteeringControlType.TorqueDriverLimited
    min_valid_request_frames := 1
    max_invalid_request_frames := 1
    min_valid_request_rt_interval := 250000
    has_steer_req_tolerance := false }

/-- The record type of `BYD_LONG_LIMITS` (units of 1/100 m/s2). -/
structure LongitudinalLimits where
  max_accel : Int
  min_accel : Int
deriving DecidableEq, Repr

/-- Constant `BYD_LONG_LIMITS`. -/
def BYD_LONG_LIMITS : LongitudinalLimits :=
  { max_accel := 200, min_accel := -350 }

/-- An entry of the transmit allow-list: `{addr, bus, len, .check_relay}`. -/
structure CanMsg where
  addr : Nat
  bus : Nat
  len : Nat
  check_relay : Bool
deriving DecidableEq, Repr

/-- Table `BYD_TX_MSGS_LIST` (macro `BYD_TX_MSGS`). -/
def BYD_TX_MSGS_LIST : List CanMsg :=
  [ { addr := 0x1E2, bus := 0, len := 8, check_relay := true },
    { addr := 0x316, bus := 0, len := 8, check_relay := true },
    { addr := 0x32D, bus := 0, len := 8, check_relay := true },
    { addr := 0x32E, bus := 0, len := 8, check_relay := true } ]

/-- One message variant of a receive check:
`{addr, bus, len, .max_counter, .ignore_quality_flag, .frequency}`. -/
structure CanMsgCheck where
  addr : Nat
  bus : Nat
  len : Nat
  max_counter : Nat
  ignore_quality_flag : Bool
  frequency : Nat
deriving DecidableEq, Repr

/-- The zero-filled variant written `{ 0 }` in the table. -/
def CanMsgCheck.zero : CanMsgCheck :=
  { addr := 0, bus := 0, len := 0, max_counter := 0,
    ignore_quality_flag := false, frequency := 0 }

/-- A receive check: the array `.msg` of three message variants. -/
structure RxCheck where
  msg : List CanMsgCheck
deriving DecidableEq, Repr

/-- Table `BYD_RX_CHECKS`. -/
def BYD_RX_CHECKS : List RxCheck :=
  [ { msg := [ { addr := 0x1FC, bus := 0, len := 8, max_counter := 15,
                 ignore_quality_flag := true, frequency := 100 },
               CanMsgCheck.zero, CanMsgCheck.zero ] },
    { msg := [ { addr := 0x342, bus := 0, len := 8, max_counter := 15,
                 ignore_quality_flag := true, frequency := 50 },
               CanMsgCheck.zero, CanMsgCheck.zero ] },
    { msg := [ { addr := 0x220, bus := 0, len := 8, max_counter := 15,
                 ignore_quality_flag := true, frequency := 100 },
               CanMsgCheck.zero, CanMsgCheck.zero ] },
    { msg := [ { addr := 0x3B0, bus := 0, len := 8, max_counter := 15,
                 ignore_quality_flag := true, frequency := 50 },
               CanMsgCheck.zero, CanMsgCheck.zero ] } ]

/-- Whether `(addr, bus)` has an entry in `BYD_RX_CHECKS`; the zero-filled
variants are fillers, not entries. -/
def rx_check_listed (addr bus : Nat) : Bool :=
  BYD_RX_CHECKS.any fun c =>
    c.msg.any fun m => m.addr != 0 && m.addr == addr && m.bus == bus

/-! ## Counter and checksum -/

/-- Function `byd_get_counter`: the 4-bit rolling counter (`uint8_t`). -/
def byd_get_counter (msg : CANPacket_t) : Nat :=
  let addr := GET_ADDR msg
  let cnt := 0
  let cnt :=
    if addr = 0x1FC then (GET_BYTE msg 6 >>> 4) &&& 0xF
    else if addr = 0x1E2 then (GET_BYTE msg 6 >>> 4) &&& 0xF
    else if addr = 0x342 then (GET_BYTE msg 6 >>> 4) &&& 0xF
    else if addr = 0x220 then (GET_BYTE msg 7 >>> 4) &&& 0xF
    else if addr = 0x3B0 then (GET_BYTE msg 6 >>> 4) &&& 0xF
    else cnt
  cnt % 256

/-- Function `byd_get_checksum`: the transmitted checksum (`uint8_t` widened
to `uint32_t`). -/
def byd_get_checksum (msg : CANPacket_t) : Nat :=
  let addr := GET_ADDR msg
  let chksum := 0
  let chksum :=
    if addr = 0x1FC then GET_BYTE msg 7 &&& 0xFF
    else if addr = 0x1E2 then GET_BYTE msg 7 &&& 0xFF
    else if addr = 0x342 then GET_BYTE msg 7 &&& 0xFF
    else if addr = 0x220 then GET_BYTE msg 7 &&& 0xFF
    else if addr = 0x3B0 then GET_BYTE msg 7 &&& 0xFF
    else chksum
  chksum % 256

/-- One iteration of the loop of `byd_compute_checksum`, at index `i` with the
8-bit accumulator `chksum`. -/
def byd_checksum_step (msg : CANPacket_t) (addr : Nat) (chksum i : Nat) : Nat :=
  if addr = 0x1E2 ∧ i = 7 then
    chksum
  else
    let b := GET_BYTE msg i
    let b :=
      if (addr = 0x1FC ∧ i = 7) ∨ (addr = 0x1E2 ∧ i = 7) ∨ (addr = 0x342 ∧ i = 7) then
        b &&& 0xF0
      else b
    (chksum + (b % 16 + b / 16)) % 256

/-- Function `byd_compute_checksum`: the loop over `i = 0 .. 7`, then the
final `(16 - (chksum % 16)) % 16`. -/
def byd_compute_checksum (msg : CANPacket_t) : Nat :=
  let addr := GET_ADDR msg
  let chksum := (List.range 8).foldl (byd_checksum_step msg addr) 0
  ((16 - chksum % 16) % 16) % 256

/-- The sum, over payload bytes 0..6, of low nibble plus high nibble. -/
def nibble_sum_0_6 (msg : CANPacket_t) : Nat :=
  ((List.range 7).map fun i => GET_BYTE msg i % 16 + GET_BYTE msg i / 16).sum

/-! ## Vehicle state and the receive hook -/

/-- The globals written by `byd_rx_hook`; `σ` is the type of a sample history
(`struct sample_t`). -/
structure VehicleState (σ : Type) where
  torque_driver : σ
  angle_meas : σ
  gas_pressed : Bool
  brake_pressed : Bool
  vehicle_moving : Bool
  acc_main_on : Bool
deriving DecidableEq, Repr

/-- Function `byd_rx_hook`.  The helper `update_sample`, which pushes a value
into a sample history, is defined outside `byd.h` and is a parameter. -/
def byd_rx_hook {σ : Type} (update_sample : σ → Int → σ)
    (s : VehicleState σ) (msg : CANPacket_t) : VehicleState σ :=
  let bus := GET_BUS msg
  let addr := GET_ADDR msg
  if bus = 0 then
    let s :=
      if addr = 0x1FC then
        let torque_driver_new : Int := ((GET_BYTES msg 0 2 &&& 0xFFFF : Nat) : Int)
        let torque_driver_new := to_signed torque_driver_new 16
        let torque_driver_new := torque_driver_new.tdiv 10
        { s with torque_driver := update_sample s.torque_driver torque_driver_new }
      else s
    let s :=
      if addr = 0x342 then
        let gas_pedal_raw := GET_BYTE msg 0
        let brake_pedal_raw := GET_BYTE msg 1
        { s with gas_pressed := decide (gas_pedal_raw > 5)
                 brake_pressed := decide (brake_pedal_raw > 5) }
      else s
    let s :=
      if addr = 0x220 then
        let speed_raw := GET_BYTES msg 0 2 &&& 0xFFFF
        { s with vehicle_moving := decide (speed_raw > 100) }
      else s
    let s :=
      if addr = 0x3B0 then
        let acc_on_btn := GET_BIT msg 19
        if acc_on_btn then { s with acc_main_on := true } else s
      else s
    let s :=
      if addr = 0x1E2 then
        let steer_angle_raw : Int := ((GET_BYTES msg 3 2 &&& 0xFFFF : Nat) : Int)
        let steer_angle := (to_signed steer_angle_raw 16).tdiv 10
        { s with angle_meas := update_sample s.angle_meas steer_angle }
      else s
    s
  else s

/-- The receive hook run over a sequence of frames, first frame first. -/
def byd_rx_run {σ : Type} (update_sample : σ → Int → σ)
    (s : VehicleState σ) (msgs : List CANPacket_t) : VehicleState σ :=
  msgs.foldl (byd_rx_hook update_sample) s

/-! ## The transmit hook -/

/-- Function `byd_tx_hook`.  The generic checker `steer_torque_cmd_checks` is
defined outside `byd.h` and is a parameter: it is given the command, the
request flag and the limits, reads the vehicle state and its own runtime state
`χ`, and answers whether there is a violation together with its new runtime
state. -/
def byd_tx_hook {σ χ : Type}
    (steer_torque_cmd_checks :
      Int → Bool → TorqueSteeringLimits → VehicleState σ → χ → Bool × χ)
    (vs : VehicleState σ) (cs : χ) (msg : CANPacket_t) : Bool × χ :=
  let BYD_STEERING_LIMITS := BYD_LIMITS 300 3 7
  let tx := true
  let addr := GET_ADDR msg
  let (tx, cs) :=
    if addr = 0x1E2 then
      let desired_angle_raw : Int := ((GET_BYTES msg 3 2 &&& 0xFFFF : Nat) : Int)
      let desired_angle := to_signed desired_angle_raw 16
      let steer_req := GET_BIT msg 21
      let r := steer_torque_cmd_checks (desired_angle.tdiv 10) steer_req
        BYD_STEERING_LIMITS vs cs
      if r.1 then (false, r.2) else (tx, r.2)
    else (tx, cs)
  -- `if (addr == 0x32E) { }`: the block holds comments only
  let tx := if addr = 0x32E then tx else tx
  let tx :=
    if addr = 0x7E0 ∨ addr = 0x7E8 then
      if GET_BYTES msg 0 4 ≠ 0x00803E02 ∨ GET_BYTES msg 4 4 ≠ 0x0 then false else tx
    else tx
  (tx, cs)

/-! ## A sample history, for concrete runs -/

/-- Modelled from the spec: `struct sample_t`, the RollingSample: a short
history of a scalar signal, most recent value first. -/
structure sample_t where
  values : List Int
deriving DecidableEq, Repr

/-- Modelled from the spec: the depth of a RollingSample history. -/
def MAX_SAMPLE_VALS : Nat := 6

/-- Modelled from the spec: helper `update_sample`, which pushes the new value
in front of the history and drops the oldest one beyond the depth. -/
def update_sample (sample : sample_t) (sample_new : Int) : sample_t :=
  { values := (sample_new :: sample.values).take MAX_SAMPLE_VALS }

/-- The state at initialisation: empty histories, all flags false. -/
def VehicleState.init : VehicleState sample_t :=
  { torque_driver := { values := List.replicate MAX_SAMPLE_VALS 0 }
    angle_meas := { values := List.replicate MAX_SAMPLE_VALS 0 }
    gas_pressed := false
    brake_pressed := false
    vehicle_moving := false
    acc_main_on := false }

/-! ## The steering command and the generic checker -/

/-- The steering command as the specification words it: payload bytes 3 and 4
read little-endian, taken as a signed 16-bit value and divided by 10 with
truncation toward zero. -/
def decoded_angle (msg : CANPacket_t) : Int :=
  (to_signed ((GET_BYTE msg 3 + 256 * GET_BYTE msg 4 : Nat) : Int) 16).tdiv 10

/-- The limits record as the specification words it, constant by constant. -/
def stated_steering_limits : TorqueSteeringLimits :=
  { max_torque := 300
    max_rate_up := 3
    max_rate_down := 7
    max_rt_delta := 375
    driver_torque_allowance := 68
    driver_torque_multiplier := 3
    type := SteeringControlType.TorqueDriverLimited
    min_valid_request_frames := 1
    max_invalid_request_frames := 1
    min_valid_request_rt_interval := 250000
    has_steer_req_tolerance := false }

/-- Modelled from the spec: the absolute-cap test of the generic checker
`steer_torque_cmd_checks`, which is defined outside `byd.h`: a value above
the cap or below its negation is out of range. -/
def max_limit_check (val max_val min_val : Int) : Bool :=
  decide (val > max_val) || decide (val < min_val)

/-- Modelled from the spec: what the specification states of the generic
checker `steer_torque_cmd_checks` (defined outside `byd.h`) about the absolute
cap: a command whose magnitude exceeds `max_torque` is a violation, whatever
the request flag, the vehicle state (driver torque included) and the runtime
state of the checker. -/
def honours_absolute_cap {σ χ : Type}
    (checks : Int → Bool → TorqueSteeringLimits → VehicleState σ → χ → Bool × χ) : Prop :=
  ∀ (v : Int) (req : Bool) (lim : TorqueSteeringLimits) (vs : VehicleState σ) (cs : χ),
    max_limit_check v lim.max_torque (-lim.max_torque) = true → (checks v req lim vs cs).1 = true

/-- Modelled from the spec: the least checker that honours the absolute cap;
it tests the cap only and keeps no runtime state.  Used for concrete runs. -/
def cap_only_checks {σ : Type} (v : Int) (_req : Bool) (lim : TorqueSteeringLimits)
    (_vs : VehicleState σ) (cs : Unit) : Bool × Unit :=
  (max_limit_check v lim.max_torque (-lim.max_torque), cs)

/-- The tester-present request as the specification words it: the payload
`02 3E 80 00 00 00 00 00`. -/
def tester_present_bytes : List Nat := [0x02, 0x3E, 0x80, 0x00, 0x00, 0x00, 0x00, 0x00]

/-- Whether `(addr, bus)` is the address and bus of an entry of
`BYD_TX_MSGS_LIST`. -/
def tx_msg_listed (addr bus : Nat) : Bool :=
  BYD_TX_MSGS_LIST.any fun m => m.addr == addr && m.bus == bus

/-! ## Arithmetic reading of the bit operations -/

theorem GET_BYTE_lt (msg : CANPacket_t) (i : Nat) : GET_BYTE msg i < 256 := by
  unfold GET_BYTE
  exact Nat.mod_lt _ (by decide)

set_option maxRecDepth 100000 in
theorem land_F0_fin : ∀ b : Fin 256, b.val &&& 0xF0 = b.val / 16 * 16 := by
  decide

theorem land_F0 (b : Nat) (h : b < 256) : b &&& 0xF0 = b / 16 * 16 :=
  land_F0_fin ⟨b, h⟩

theorem shr4_land_F (b : Nat) (h : b < 256) : (b >>> 4) &&& 0xF = b / 16 := by
  have h1 : (b >>> 4) &&& 0xF = (b >>> 4) % 2 ^ 4 := Nat.and_pow_two_sub_one_eq_mod _ 4
  rw [h1, Nat.shiftRight_eq_div_pow]
  omega

theorem land_FF (b : Nat) (h : b < 256) : b &&& 0xFF = b := by
  have h1 : b &&& 0xFF = b % 2 ^ 8 := Nat.and_pow_two_sub_one_eq_mod _ 8
  rw [h1]
  omega

/-- The checksum loop unrolled: the accumulator after the eight iterations. -/
theorem byd_compute_checksum_unfold (msg : CANPacket_t) :
    byd_compute_checksum msg =
      ((16 - (byd_checksum_step msg msg.addr
        (byd_checksum_step msg msg.addr
        (byd_checksum_step msg msg.addr
        (byd_checksum_step msg msg.addr
        (byd_checksum_step msg msg.addr
        (byd_checksum_step msg msg.addr
        (byd_checksum_step msg msg.addr
        (byd_checksum_step msg msg.addr 0 0) 1) 2) 3) 4) 5) 6) 7) % 16) % 16) % 256 := by
  simp [byd_compute_checksum, GET_ADDR, List.range, List.range.loop]

theorem nibble_sum_0_6_eq (msg : CANPacket_t) :
    nibble_sum_0_6 msg =
      (GET_BYTE msg 0 % 16 + GET_BYTE msg 0 / 16) + (GET_BYTE msg 1 % 16 + GET_BYTE msg 1 / 16) +
      (GET_BYTE msg 2 % 16 + GET_BYTE msg 2 / 16) + (GET_BYTE msg 3 % 16 + GET_BYTE msg 3 / 16) +
      (GET_BYTE msg 4 % 16 + GET_BYTE msg 4 / 16) + (GET_BYTE msg 5 % 16 + GET_BYTE msg 5 / 16) +
      (GET_BYTE msg 6 % 16 + GET_BYTE msg 6 / 16) := by
  simp [nibble_sum_0_6, List.range, List.range.loop]
  omega

theorem compute_checksum_1E2 (msg : CANPacket_t) (h : msg.addr = 0x1E2) :
    byd_compute_checksum msg = (16 - nibble_sum_0_6 msg % 16) % 16 := by
  rw [byd_compute_checksum_unfold, nibble_sum_0_6_eq]
  simp [byd_checksum_step, h]
  omega

theorem compute_checksum_masked (msg : CANPacket_t)
    (h : msg.addr = 0x1FC ∨ msg.addr = 0x342) :
    byd_compute_checksum msg =
      (16 - (nibble_sum_0_6 msg + GET_BYTE msg 7 / 16) % 16) % 16 := by
  have h7 := land_F0 (GET_BYTE msg 7) (GET_BYTE_lt msg 7)
  rw [byd_compute_checksum_unfold, nibble_sum_0_6_eq]
  rcases h with h | h <;> simp [byd_checksum_step, h, h7] <;> omega

theorem compute_checksum_plain (msg : CANPacket_t)
    (h1 : msg.addr ≠ 0x1FC) (h2 : msg.addr ≠ 0x1E2) (h3 : msg.addr ≠ 0x342) :
    byd_compute_checksum msg =
      (16 - (nibble_sum_0_6 msg + (GET_BYTE msg 7 % 16 + GET_BYTE msg 7 / 16)) % 16) % 16 := by
  rw [byd_compute_checksum_unfold, nibble_sum_0_6_eq]
  simp [byd_checksum_step, h1, h2, h3]
  omega

theorem get_checksum_known (msg : CANPacket_t)
    (h : msg.addr = 0x1FC ∨ msg.addr = 0x1E2 ∨ msg.addr = 0x342 ∨ msg.addr = 0x220 ∨
      msg.addr = 0x3B0) :
    byd_get_checksum msg = GET_BYTE msg 7 := by
  have h7 := land_FF (GET_BYTE msg 7) (GET_BYTE_lt msg 7)
  have hlt := GET_BYTE_lt msg 7
  rcases h with h | h | h | h | h <;> simp [byd_get_checksum, GET_ADDR, h, h7] <;> omega

theorem nibble_sum_0_6_congr (m m' : CANPacket_t)
    (hbytes : ∀ i, i < 7 → GET_BYTE m' i = GET_BYTE m i) :
    nibble_sum_0_6 m' = nibble_sum_0_6 m := by
  rw [nibble_sum_0_6_eq, nibble_sum_0_6_eq, hbytes 0 (by decide), hbytes 1 (by decide),
    hbytes 2 (by decide), hbytes 3 (by decide), hbytes 4 (by decide), hbytes 5 (by decide),
    hbytes 6 (by decide)]

theorem get_counter_val (msg : CANPacket_t) :
    byd_get_counter msg =
      if msg.addr = 0x1FC ∨ msg.addr = 0x1E2 ∨ msg.addr = 0x342 ∨ msg.addr = 0x3B0 then
        GET_BYTE msg 6 / 16
      else if msg.addr = 0x220 then GET_BYTE msg 7 / 16
      else 0 := by
  have h6 := shr4_land_F (GET_BYTE msg 6) (GET_BYTE_lt msg 6)
  have h7 := shr4_land_F (GET_BYTE msg 7) (GET_BYTE_lt msg 7)
  have l6 := GET_BYTE_lt msg 6
  have l7 := GET_BYTE_lt msg 7
  simp only [byd_get_counter, GET_ADDR, h6, h7]
  split_ifs <;> omega

/-- C1 (counterexample): at address 0x1FC the payload `00 00 00 00 00 00 00 10`
has computed checksum 15; with byte 7 replaced by 15 the transmitted checksum
is 15 but the recomputed checksum is 0. -/
theorem c1_round_trip_counterexample :
    byd_compute_checksum ⟨0x1FC, 0, 8, [0, 0, 0, 0, 0, 0, 0, 0x10]⟩ = 15 ∧
    byd_get_checksum ⟨0x1FC, 0, 8, [0, 0, 0, 0, 0, 0, 0, 15]⟩ = 15 ∧
    byd_compute_checksum ⟨0x1FC, 0, 8, [0, 0, 0, 0, 0, 0, 0, 15]⟩ = 0 ∧
    ¬ (∀ m m' : CANPacket_t,
        (m.addr = 0x1FC ∨ m.addr = 0x1E2 ∨ m.addr = 0x342 ∨ m.addr = 0x220 ∨
          m.addr = 0x3B0) →
        m'.addr = m.addr → (∀ i, i < 7 → GET_BYTE m' i = GET_BYTE m i) →
        GET_BYTE m' 7 = byd_compute_checksum m →
        byd_get_checksum m' = byd_compute_checksum m') := by
  refine ⟨by decide, by decide, by decide, ?_⟩
  intro h
  have := h ⟨0x1FC, 0, 8, [0, 0, 0, 0, 0, 0, 0, 0x10]⟩ ⟨0x1FC, 0, 8, [0, 0, 0, 0, 0, 0, 0, 15]⟩
    (by decide) (by decide) (by decide) (by decide)
  revert this
  decide

/-- C1 (amended): the checksum round trip holds at address 0x1E2 for every
payload, and at addresses 0x1FC and 0x342 for every payload whose byte 7 has a
zero high nibble: if `m'` is `m` with byte 7 replaced by
`byd_compute_checksum m`, then `byd_get_checksum m' = byd_compute_checksum m'`. -/
theorem c1_round_trip_amended (m m' : CANPacket_t)
    (hcase : m.addr = 0x1E2 ∨
      ((m.addr = 0x1FC ∨ m.addr = 0x342) ∧ GET_BYTE m 7 / 16 = 0))
    (haddr : m'.addr = m.addr)
    (hbytes : ∀ i, i < 7 → GET_BYTE m' i = GET_BYTE m i)
    (h7 : GET_BYTE m' 7 = byd_compute_checksum m) :
    byd_get_checksum m' = byd_compute_checksum m' := by
  have hs := nibble_sum_0_6_congr m m' hbytes
  rcases hcase with h | ⟨h, hz⟩
  · have h' : m'.addr = 0x1E2 := by rw [haddr, h]
    rw [get_checksum_known m' (by simp [h']), h7, compute_checksum_1E2 m h,
      compute_checksum_1E2 m' h', hs]
  · have h' : m'.addr = 0x1FC ∨ m'.addr = 0x342 := by rw [haddr]; exact h
    have hk : m'.addr = 0x1FC ∨ m'.addr = 0x1E2 ∨ m'.addr = 0x342 ∨ m'.addr = 0x220 ∨
        m'.addr = 0x3B0 := by
      rcases h' with h' | h' <;> simp [h']
    have hc := compute_checksum_masked m h
    rw [get_checksum_known m' hk, compute_checksum_masked m' h', hs, h7]
    rw [hc] at h7 ⊢
    omega

/-- C1 (witness): address 0x1FC, payload `01 02 03 04 05 06 07 0A`, whose
computed checksum is 4. -/
theorem c1_round_trip_amended_witness :
    byd_compute_checksum ⟨0x1FC, 0, 8, [1, 2, 3, 4, 5, 6, 7, 0x0A]⟩ = 4 ∧
    byd_get_checksum ⟨0x1FC, 0, 8, [1, 2, 3, 4, 5, 6, 7, 4]⟩ =
      byd_compute_checksum ⟨0x1FC, 0, 8, [1, 2, 3, 4, 5, 6, 7, 4]⟩ :=
  ⟨by decide,
   c1_round_trip_amended ⟨0x1FC, 0, 8, [1, 2, 3, 4, 5, 6, 7, 0x0A]⟩
    ⟨0x1FC, 0, 8, [1, 2, 3, 4, 5, 6, 7, 4]⟩ (by decide) (by decide) (by decide) (by decide)⟩

/-- C2: at address 0x1E2 the computed checksum is `(16 - (S mod 16)) mod 16`
with `S` the sum, over payload bytes 0..6, of low nibble plus high nibble;
`S` is at most 210, so the 8-bit accumulator never wraps, and byte 7 does not
enter the result. -/
theorem c2_checksum_1E2_closed_form (m : CANPacket_t) (h : m.addr = 0x1E2) :
    byd_compute_checksum m = (16 - nibble_sum_0_6 m % 16) % 16 ∧
    nibble_sum_0_6 m ≤ 210 ∧
    (List.range 7).foldl (byd_checksum_step m m.addr) 0 = nibble_sum_0_6 m ∧
    ∀ m' : CANPacket_t, m'.addr = 0x1E2 → (∀ i, i < 7 → GET_BYTE m' i = GET_BYTE m i) →
      byd_compute_checksum m' = byd_compute_checksum m := by
  have l0 := GET_BYTE_lt m 0
  have l1 := GET_BYTE_lt m 1
  have l2 := GET_BYTE_lt m 2
  have l3 := GET_BYTE_lt m 3
  have l4 := GET_BYTE_lt m 4
  have l5 := GET_BYTE_lt m 5
  have l6 := GET_BYTE_lt m 6
  refine ⟨compute_checksum_1E2 m h, ?_, ?_, ?_⟩
  · rw [nibble_sum_0_6_eq]
    omega
  · rw [nibble_sum_0_6_eq]
    simp [byd_checksum_step, h, List.range, List.range.loop]
    omega
  · intro m' h' hbytes
    rw [compute_checksum_1E2 m h, compute_checksum_1E2 m' h', nibble_sum_0_6_congr m m' hbytes]

/-- C2 (witness): address 0x1E2, payload `FF FF FF FF FF FF FF FF`: the nibble
sum of bytes 0..6 is 210 and the checksum is 14. -/
theorem c2_checksum_1E2_closed_form_witness :
    byd_compute_checksum ⟨0x1E2, 0, 8, [0xFF, 0xFF, 0xFF, 0xFF, 0xFF, 0xFF, 0xFF, 0xFF]⟩ = 14 ∧
    nibble_sum_0_6 ⟨0x1E2, 0, 8, [0xFF, 0xFF, 0xFF, 0xFF, 0xFF, 0xFF, 0xFF, 0xFF]⟩ = 210 := by
  have h := c2_checksum_1E2_closed_form
    ⟨0x1E2, 0, 8, [0xFF, 0xFF, 0xFF, 0xFF, 0xFF, 0xFF, 0xFF, 0xFF]⟩ rfl
  have hs : nibble_sum_0_6 ⟨0x1E2, 0, 8, [0xFF, 0xFF, 0xFF, 0xFF, 0xFF, 0xFF, 0xFF, 0xFF]⟩ = 210 := by
    decide
  refine ⟨?_, hs⟩
  rw [h.1, hs]

/-- C3 (failing input): at address 0x220 the payloads `00 .. 00 00` and
`00 .. 00 01` agree on bytes 0..6 and on the high nibble of byte 7, yet their
computed checksums are 0 and 15; the same holds at address 0x3B0. -/
theorem c3_checksum_depends_on_byte7 :
    byd_compute_checksum ⟨0x220, 0, 8, [0, 0, 0, 0, 0, 0, 0, 0]⟩ = 0 ∧
    byd_compute_checksum ⟨0x220, 0, 8, [0, 0, 0, 0, 0, 0, 0, 1]⟩ = 15 ∧
    byd_compute_checksum ⟨0x3B0, 0, 8, [0, 0, 0, 0, 0, 0, 0, 0]⟩ = 0 ∧
    byd_compute_checksum ⟨0x3B0, 0, 8, [0, 0, 0, 0, 0, 0, 0, 1]⟩ = 15 := by
  decide

/-- The sibling paths: at addresses 0x1FC, 0x1E2 and 0x342 the computed
checksum does not depend on the low nibble of byte 7. -/
theorem checksum_ignores_low_nibble_masked (m m' : CANPacket_t)
    (h : m.addr = 0x1FC ∨ m.addr = 0x1E2 ∨ m.addr = 0x342)
    (haddr : m'.addr = m.addr)
    (hbytes : ∀ i, i < 7 → GET_BYTE m' i = GET_BYTE m i)
    (h7 : GET_BYTE m' 7 / 16 = GET_BYTE m 7 / 16) :
    byd_compute_checksum m' = byd_compute_checksum m := by
  have hs := nibble_sum_0_6_congr m m' hbytes
  rcases h with h | h | h
  · rw [compute_checksum_masked m (Or.inl h),
      compute_checksum_masked m' (Or.inl (haddr.trans h)), hs, h7]
  · rw [compute_checksum_1E2 m h, compute_checksum_1E2 m' (haddr.trans h), hs]
  · rw [compute_checksum_masked m (Or.inr h),
      compute_checksum_masked m' (Or.inr (haddr.trans h)), hs, h7]

/-- C4: for an address that is none of 0x1FC, 0x1E2, 0x342, 0x220, 0x3B0 the
counter and the checksum are both 0, whatever the payload. -/
theorem c4_unknown_address_zero (m : CANPacket_t)
    (h1 : m.addr ≠ 0x1FC) (h2 : m.addr ≠ 0x1E2) (h3 : m.addr ≠ 0x342)
    (h4 : m.addr ≠ 0x220) (h5 : m.addr ≠ 0x3B0) :
    byd_get_counter m = 0 ∧ byd_get_checksum m = 0 := by
  constructor
  · simp [byd_get_counter, GET_ADDR, h1, h2, h3, h4, h5]
  · simp [byd_get_checksum, GET_ADDR, h1, h2, h3, h4, h5]

/-- C4 (witness): address 0x999 with a payload of `FF` bytes. -/
theorem c4_unknown_address_zero_witness :
    byd_get_counter ⟨0x999, 0, 8, [0xFF, 0xFF, 0xFF, 0xFF, 0xFF, 0xFF, 0xFF, 0xFF]⟩ = 0 ∧
    byd_get_checksum ⟨0x999, 0, 8, [0xFF, 0xFF, 0xFF, 0xFF, 0xFF, 0xFF, 0xFF, 0xFF]⟩ = 0 :=
  c4_unknown_address_zero ⟨0x999, 0, 8, [0xFF, 0xFF, 0xFF, 0xFF, 0xFF, 0xFF, 0xFF, 0xFF]⟩
    (by decide) (by decide) (by decide) (by decide) (by decide)

/-- C5: the counter is the high nibble of byte 6 at addresses 0x1FC, 0x1E2,
0x342, 0x3B0 and the high nibble of byte 7 at address 0x220; it is at most 15
and equal for frames with equal address and equal payload bytes; the checksum
is byte 7, at most 255, at each of the five addresses. -/
theorem c5_fixed_position_extraction (m : CANPacket_t) :
    ((m.addr = 0x1FC ∨ m.addr = 0x1E2 ∨ m.addr = 0x342 ∨ m.addr = 0x3B0) →
      byd_get_counter m = GET_BYTE m 6 / 16) ∧
    (m.addr = 0x220 → byd_get_counter m = GET_BYTE m 7 / 16) ∧
    byd_get_counter m ≤ 15 ∧
    (∀ m' : CANPacket_t, m'.addr = m.addr → (∀ i, i < 8 → GET_BYTE m' i = GET_BYTE m i) →
      byd_get_counter m' = byd_get_counter m) ∧
    ((m.addr = 0x1FC ∨ m.addr = 0x1E2 ∨ m.addr = 0x342 ∨ m.addr = 0x220 ∨ m.addr = 0x3B0) →
      byd_get_checksum m = GET_BYTE m 7 ∧ byd_get_checksum m ≤ 255) := by
  have l6 := GET_BYTE_lt m 6
  have l7 := GET_BYTE_lt m 7
  refine ⟨?_, ?_, ?_, ?_, ?_⟩
  · intro h
    rw [get_counter_val, if_pos h]
  · intro h
    rw [get_counter_val, if_neg (by simp [h]), if_pos h]
  · rw [get_counter_val]
    split_ifs <;> omega
  · intro m' haddr hbytes
    rw [get_counter_val, get_counter_val, haddr, hbytes 6 (by decide), hbytes 7 (by decide)]
  · intro h
    rw [get_checksum_known m h]
    exact ⟨rfl, by omega⟩

/-- C5 (witness): address 0x220 with bytes 6 and 7 equal to `A0` and `B7`: the
counter is 11 (high nibble of byte 7) and the checksum is 183. -/
theorem c5_fixed_position_extraction_witness :
    byd_get_counter ⟨0x220, 0, 8, [0, 0, 0, 0, 0, 0, 0xA0, 0xB7]⟩ = 11 ∧
    byd_get_checksum ⟨0x220, 0, 8, [0, 0, 0, 0, 0, 0, 0xA0, 0xB7]⟩ = 183 := by
  have h := c5_fixed_position_extraction ⟨0x220, 0, 8, [0, 0, 0, 0, 0, 0, 0xA0, 0xB7]⟩
  have hc := h.2.1 rfl
  have hk := (h.2.2.2.2 (by decide)).1
  rw [hc, hk]
  decide

theorem GET_BIT_19 (msg : CANPacket_t) :
    GET_BIT msg 19 = decide (GET_BYTE msg 2 / 8 % 2 = 1) := by
  have h : (GET_BYTE msg 2 >>> 3) &&& 1 = GET_BYTE msg 2 / 8 % 2 := by
    rw [Nat.and_one_is_mod, Nat.shiftRight_eq_div_pow]
  simp only [GET_BIT, show 19 / 8 = 2 from rfl, show 19 % 8 = 3 from rfl, h]
  rcases Nat.mod_two_eq_zero_or_one (GET_BYTE msg 2 / 8) with h0 | h1
  · simp [h0]
  · simp [h1]

/-- All three extraction functions and the receive hook read the frame only
through its address, its bus and payload bytes 0..7. -/
theorem reads_only_first_eight (m1 m2 : CANPacket_t)
    (haddr : m1.addr = m2.addr) (hbus : m1.bus = m2.bus)
    (hbytes : ∀ i, i < 8 → GET_BYTE m1 i = GET_BYTE m2 i) :
    byd_get_counter m1 = byd_get_counter m2 ∧
    byd_get_checksum m1 = byd_get_checksum m2 ∧
    byd_compute_checksum m1 = byd_compute_checksum m2 ∧
    ∀ (σ : Type) (upd : σ → Int → σ) (s : VehicleState σ),
      byd_rx_hook upd s m1 = byd_rx_hook upd s m2 := by
  have e0 := hbytes 0 (by decide)
  have e1 := hbytes 1 (by decide)
  have e2 := hbytes 2 (by decide)
  have e3 := hbytes 3 (by decide)
  have e4 := hbytes 4 (by decide)
  have e5 := hbytes 5 (by decide)
  have e6 := hbytes 6 (by decide)
  have e7 := hbytes 7 (by decide)
  refine ⟨?_, ?_, ?_, ?_⟩
  · simp only [byd_get_counter, GET_ADDR, haddr, e6, e7]
  · simp only [byd_get_checksum, GET_ADDR, haddr, e7]
  · rw [byd_compute_checksum_unfold, byd_compute_checksum_unfold]
    simp only [byd_checksum_step, haddr, e0, e1, e2, e3, e4, e5, e6, e7]
  · intro σ upd s
    have g02 : GET_BYTES m1 0 2 = GET_BYTES m2 0 2 := by
      simp [GET_BYTES, List.range, List.range.loop, e0, e1]
    have g32 : GET_BYTES m1 3 2 = GET_BYTES m2 3 2 := by
      simp [GET_BYTES, List.range, List.range.loop, e3, e4]
    simp only [byd_rx_hook, GET_ADDR, GET_BUS, GET_BIT_19, haddr, hbus, g02, g32, e0, e1, e2]

/-- C6 (counterexample): two frames at address 0x1FC on bus 0 with declared
length 4 and equal bytes at indices 0..3, differing at index 6, have counters
0 and 10: byte 6 is read although it lies past the declared length. -/
theorem c6_reads_past_declared_length :
    byd_get_counter ⟨0x1FC, 0, 4, [1, 2, 3, 4, 0, 0, 0, 0]⟩ = 0 ∧
    byd_get_counter ⟨0x1FC, 0, 4, [1, 2, 3, 4, 0, 0, 0xA0, 0]⟩ = 10 ∧
    ¬ (∀ (s : VehicleState sample_t) (m1 m2 : CANPacket_t),
        m1.addr = m2.addr → m1.bus = m2.bus → m1.len = m2.len → m1.len ≤ 8 →
        (∀ i, i < m1.len → GET_BYTE m1 i = GET_BYTE m2 i) →
        byd_get_counter m1 = byd_get_counter m2 ∧
        byd_get_checksum m1 = byd_get_checksum m2 ∧
        byd_compute_checksum m1 = byd_compute_checksum m2 ∧
        byd_rx_hook update_sample s m1 = byd_rx_hook update_sample s m2) := by
  refine ⟨by decide, by decide, ?_⟩
  intro h
  have := (h VehicleState.init ⟨0x1FC, 0, 4, [1, 2, 3, 4, 0, 0, 0, 0]⟩
    ⟨0x1FC, 0, 4, [1, 2, 3, 4, 0, 0, 0xA0, 0]⟩ rfl rfl rfl (by decide) (by decide)).1
  revert this
  decide

/-- C6 (amended): no extraction reads past payload index 7, whatever the
declared length: two frames with the same address, the same bus and equal
payload bytes at every index below 8 give equal results of `byd_get_counter`,
`byd_get_checksum` and `byd_compute_checksum`, and `byd_rx_hook` produces the
same state from the same starting state. -/
theorem c6_reads_only_first_eight (σ : Type) (upd : σ → Int → σ) (s : VehicleState σ)
    (m1 m2 : CANPacket_t)
    (haddr : m1.addr = m2.addr) (hbus : m1.bus = m2.bus)
    (hbytes : ∀ i, i < 8 → GET_BYTE m1 i = GET_BYTE m2 i) :
    byd_get_counter m1 = byd_get_counter m2 ∧
    byd_get_checksum m1 = byd_get_checksum m2 ∧
    byd_compute_checksum m1 = byd_compute_checksum m2 ∧
    byd_rx_hook upd s m1 = byd_rx_hook upd s m2 :=
  have h := reads_only_first_eight m1 m2 haddr hbus hbytes
  ⟨h.1, h.2.1, h.2.2.1, h.2.2.2 σ upd s⟩

/-- C6 (witness): two 0x342 frames on bus 0 with declared lengths 8 and 12 that
agree on bytes 0..7 and differ at index 8. -/
theorem c6_reads_only_first_eight_witness :
    byd_get_counter ⟨0x342, 0, 8, [9, 0, 0, 0, 0, 0, 0x50, 3]⟩ =
      byd_get_counter ⟨0x342, 0, 12, [9, 0, 0, 0, 0, 0, 0x50, 3, 0xFF]⟩ ∧
    byd_get_checksum ⟨0x342, 0, 8, [9, 0, 0, 0, 0, 0, 0x50, 3]⟩ =
      byd_get_checksum ⟨0x342, 0, 12, [9, 0, 0, 0, 0, 0, 0x50, 3, 0xFF]⟩ ∧
    byd_compute_checksum ⟨0x342, 0, 8, [9, 0, 0, 0, 0, 0, 0x50, 3]⟩ =
      byd_compute_checksum ⟨0x342, 0, 12, [9, 0, 0, 0, 0, 0, 0x50, 3, 0xFF]⟩ ∧
    byd_rx_hook update_sample VehicleState.init ⟨0x342, 0, 8, [9, 0, 0, 0, 0, 0, 0x50, 3]⟩ =
      byd_rx_hook update_sample VehicleState.init
        ⟨0x342, 0, 12, [9, 0, 0, 0, 0, 0, 0x50, 3, 0xFF]⟩ :=
  c6_reads_only_first_eight sample_t update_sample VehicleState.init
    ⟨0x342, 0, 8, [9, 0, 0, 0, 0, 0, 0x50, 3]⟩ ⟨0x342, 0, 12, [9, 0, 0, 0, 0, 0, 0x50, 3, 0xFF]⟩
    rfl rfl (by decide)

/-- C7 (counterexample): the frame 0x1E2 on bus 0 with payload
`00 00 00 64 00 00 00 00` changes the measured-angle sample of the initial
state (the value 10 is pushed), and (0x1E2, 0) has no entry in
`BYD_RX_CHECKS`. -/
theorem c7_unlisted_address_changes_state :
    (byd_rx_hook update_sample VehicleState.init
      ⟨0x1E2, 0, 8, [0, 0, 0, 0x64, 0, 0, 0, 0]⟩).angle_meas = ⟨[10, 0, 0, 0, 0, 0]⟩ ∧
    byd_rx_hook update_sample VehicleState.init ⟨0x1E2, 0, 8, [0, 0, 0, 0x64, 0, 0, 0, 0]⟩ ≠
      VehicleState.init ∧
    rx_check_listed 0x1E2 0 = false := by
  decide

/-- The receive hook does nothing off bus 0 and nothing for an address it does
not handle. -/
theorem rx_hook_frame (σ : Type) (upd : σ → Int → σ) (s : VehicleState σ) (f : CANPacket_t)
    (h : f.bus ≠ 0 ∨ (f.addr ≠ 0x1FC ∧ f.addr ≠ 0x342 ∧ f.addr ≠ 0x220 ∧ f.addr ≠ 0x3B0 ∧
      f.addr ≠ 0x1E2)) :
    byd_rx_hook upd s f = s := by
  rcases h with h | ⟨h1, h2, h3, h4, h5⟩
  · simp [byd_rx_hook, GET_BUS, h]
  · simp [byd_rx_hook, GET_ADDR, h1, h2, h3, h4, h5]

/-- C7 (amended): if `byd_rx_hook` changes the driver-torque sample,
`gas_pressed`, `brake_pressed`, `vehicle_moving` or `acc_main_on`, then the
(address, bus) of the frame has an entry in `BYD_RX_CHECKS`; if it changes the
measured-angle sample, the frame is address 0x1E2 on bus 0, which has no entry
in `BYD_RX_CHECKS`. -/
theorem c7_state_change_sources (σ : Type) (upd : σ → Int → σ) (s : VehicleState σ)
    (f : CANPacket_t) :
    (((byd_rx_hook upd s f).torque_driver ≠ s.torque_driver ∨
      (byd_rx_hook upd s f).gas_pressed ≠ s.gas_pressed ∨
      (byd_rx_hook upd s f).brake_pressed ≠ s.brake_pressed ∨
      (byd_rx_hook upd s f).vehicle_moving ≠ s.vehicle_moving ∨
      (byd_rx_hook upd s f).acc_main_on ≠ s.acc_main_on) →
        rx_check_listed f.addr f.bus = true) ∧
    ((byd_rx_hook upd s f).angle_meas ≠ s.angle_meas →
        f.addr = 0x1E2 ∧ f.bus = 0 ∧ rx_check_listed f.addr f.bus = false) := by
  by_cases hb : f.bus = 0
  · by_cases h1 : f.addr = 0x1FC
    · refine ⟨fun _ => by rw [h1, hb]; decide, fun h => absurd ?_ h⟩
      simp [byd_rx_hook, GET_BUS, GET_ADDR, hb, h1]
    by_cases h2 : f.addr = 0x342
    · refine ⟨fun _ => by rw [h2, hb]; decide, fun h => absurd ?_ h⟩
      simp [byd_rx_hook, GET_BUS, GET_ADDR, hb, h2]
    by_cases h3 : f.addr = 0x220
    · refine ⟨fun _ => by rw [h3, hb]; decide, fun h => absurd ?_ h⟩
      simp [byd_rx_hook, GET_BUS, GET_ADDR, hb, h3]
    by_cases h4 : f.addr = 0x3B0
    · refine ⟨fun _ => by rw [h4, hb]; decide, fun h => absurd ?_ h⟩
      simp only [byd_rx_hook, GET_BUS, GET_ADDR, hb, h4]
      split_ifs <;> simp_all
    by_cases h5 : f.addr = 0x1E2
    · refine ⟨fun h => absurd h ?_, fun _ => ⟨h5, hb, by rw [h5, hb]; decide⟩⟩
      simp [byd_rx_hook, GET_BUS, GET_ADDR, hb, h5]
    · have e := rx_hook_frame σ upd s f (Or.inr ⟨h1, h2, h3, h4, h5⟩)
      rw [e]
      simp
  · have e := rx_hook_frame σ upd s f (Or.inl hb)
    rw [e]
    simp

/-- C7 (witness): a 0x342 frame on bus 0 with gas byte 9 sets `gas_pressed` in
the initial state, and (0x342, 0) has an entry in `BYD_RX_CHECKS`. -/
theorem c7_state_change_sources_witness :
    (byd_rx_hook update_sample VehicleState.init
      ⟨0x342, 0, 8, [9, 0, 0, 0, 0, 0, 0, 0]⟩).gas_pressed ≠ VehicleState.init.gas_pressed ∧
    rx_check_listed 0x342 0 = true :=
  ⟨by decide,
   (c7_state_change_sources sample_t update_sample VehicleState.init
      ⟨0x342, 0, 8, [9, 0, 0, 0, 0, 0, 0, 0]⟩).1 (Or.inr (Or.inl (by decide)))⟩

/-- C8: a frame whose bus is not 0, or whose address is none of 0x1FC, 0x342,
0x220, 0x3B0, 0x1E2, leaves every component of the vehicle state unchanged. -/
theorem c8_rx_frame_condition (σ : Type) (upd : σ → Int → σ) (s : VehicleState σ)
    (f : CANPacket_t)
    (h : f.bus ≠ 0 ∨ (f.addr ≠ 0x1FC ∧ f.addr ≠ 0x342 ∧ f.addr ≠ 0x220 ∧ f.addr ≠ 0x3B0 ∧
      f.addr ≠ 0x1E2)) :
    byd_rx_hook upd s f = s :=
  rx_hook_frame σ upd s f h

/-- C8 (witness): a 0x342 frame with both pedal bytes high, seen on bus 1. -/
theorem c8_rx_frame_condition_witness :
    byd_rx_hook update_sample VehicleState.init ⟨0x342, 1, 8, [0xFF, 0xFF, 0, 0, 0, 0, 0, 0]⟩ =
      VehicleState.init :=
  c8_rx_frame_condition sample_t update_sample VehicleState.init
    ⟨0x342, 1, 8, [0xFF, 0xFF, 0, 0, 0, 0, 0, 0]⟩ (Or.inl (by decide))

/-- One receive step never clears `acc_main_on`. -/
theorem rx_hook_keeps_acc_main_on (σ : Type) (upd : σ → Int → σ) (s : VehicleState σ)
    (f : CANPacket_t) (h : s.acc_main_on = true) :
    (byd_rx_hook upd s f).acc_main_on = true := by
  simp only [byd_rx_hook]
  split_ifs <;> simp_all

/-- A run of receive steps never clears `acc_main_on`. -/
theorem rx_run_keeps_acc_main_on (σ : Type) (upd : σ → Int → σ) (msgs : List CANPacket_t) :
    ∀ s : VehicleState σ, s.acc_main_on = true →
      (byd_rx_run upd s msgs).acc_main_on = true := by
  induction msgs with
  | nil => intro s h; exact h
  | cons f rest ih =>
    intro s h
    exact ih (byd_rx_hook upd s f) (rx_hook_keeps_acc_main_on σ upd s f h)

/-- C9: from a state with `acc_main_on` true, `acc_main_on` is still true
after any finite sequence of frames; and a 0x3B0 frame on bus 0 with bit 19
(bit 3 of byte 2) set makes `acc_main_on` true from any state. -/
theorem c9_cruise_latch (σ : Type) (upd : σ → Int → σ) (s : VehicleState σ) :
    (s.acc_main_on = true → ∀ msgs : List CANPacket_t,
      (byd_rx_run upd s msgs).acc_main_on = true) ∧
    (∀ f : CANPacket_t, f.addr = 0x3B0 → f.bus = 0 → GET_BYTE f 2 / 8 % 2 = 1 →
      GET_BIT f 19 = true ∧ (byd_rx_hook upd s f).acc_main_on = true) := by
  refine ⟨fun h msgs => rx_run_keeps_acc_main_on σ upd msgs s h, ?_⟩
  intro f ha hb hbit
  have hg : GET_BIT f 19 = true := by rw [GET_BIT_19]; simp [hbit]
  refine ⟨hg, ?_⟩
  simp [byd_rx_hook, GET_BUS, GET_ADDR, ha, hb, hg]

/-- C9 (witness): a 0x3B0 frame with byte 2 equal to `08` latches cruise main
on from the initial state, and 0x3B0 frames with the bit clear, a frame on bus
1 and a frame of another address do not clear it afterwards. -/
theorem c9_cruise_latch_witness :
    (byd_rx_hook update_sample VehicleState.init
      ⟨0x3B0, 0, 8, [0, 0, 8, 0, 0, 0, 0, 0]⟩).acc_main_on = true ∧
    (byd_rx_run update_sample
      (byd_rx_hook update_sample VehicleState.init ⟨0x3B0, 0, 8, [0, 0, 8, 0, 0, 0, 0, 0]⟩)
      [⟨0x3B0, 0, 8, [0, 0, 0, 0, 0, 0, 0, 0]⟩, ⟨0x3B0, 1, 8, [0, 0, 0, 0, 0, 0, 0, 0]⟩,
       ⟨0x342, 0, 8, [0, 0, 0, 0, 0, 0, 0, 0]⟩]).acc_main_on = true :=
  have h1 := ((c9_cruise_latch sample_t update_sample VehicleState.init).2
    ⟨0x3B0, 0, 8, [0, 0, 8, 0, 0, 0, 0, 0]⟩ rfl rfl (by decide)).2
  ⟨h1, (c9_cruise_latch sample_t update_sample
    (byd_rx_hook update_sample VehicleState.init ⟨0x3B0, 0, 8, [0, 0, 8, 0, 0, 0, 0, 0]⟩)).1 h1 _⟩

/-- C10 (counterexample): with a checker that reports a violation on every
call, the frame 0x32E with payload `FF FF FF FF FF FF FF FF` is still accepted:
`byd_tx_hook` returns true. -/
theorem c10_acc_cmd_accepted :
    (byd_tx_hook (fun _ _ _ (_ : VehicleState sample_t) (c : Unit) => (true, c))
      VehicleState.init ()
      ⟨0x32E, 0, 8, [0xFF, 0xFF, 0xFF, 0xFF, 0xFF, 0xFF, 0xFF, 0xFF]⟩).1 = true := by
  decide

/-- C10 (amended): the acceleration field of address 0x32E is not decoded and
no check is applied to it: `byd_tx_hook` returns true (accept) for every frame
with address 0x32E, for every payload, every vehicle state and every checker. -/
theorem c10_acc_cmd_unchecked (σ χ : Type)
    (checks : Int → Bool → TorqueSteeringLimits → VehicleState σ → χ → Bool × χ)
    (vs : VehicleState σ) (cs : χ) (f : CANPacket_t) (h : f.addr = 0x32E) :
    (byd_tx_hook checks vs cs f).1 = true ∧ (byd_tx_hook checks vs cs f).2 = cs := by
  simp [byd_tx_hook, GET_ADDR, h]

/-- C10 (witness): a 0x32E frame carrying zeros, with a checker that reports a
violation on every call. -/
theorem c10_acc_cmd_unchecked_witness :
    (byd_tx_hook (fun _ _ _ (_ : VehicleState sample_t) (c : Unit) => (true, c))
      VehicleState.init () ⟨0x32E, 0, 8, [0, 0, 0, 0, 0, 0, 0, 0]⟩).1 = true :=
  (c10_acc_cmd_unchecked sample_t Unit (fun _ _ _ _ c => (true, c)) VehicleState.init ()
    ⟨0x32E, 0, 8, [0, 0, 0, 0, 0, 0, 0, 0]⟩ rfl).1

/-! ## Field-by-field reading of the receive hook -/

theorem GET_BYTES_2 (msg : CANPacket_t) (start : Nat) :
    GET_BYTES msg start 2 &&& 0xFFFF = GET_BYTE msg start + 256 * GET_BYTE msg (start + 1) := by
  have l0 := GET_BYTE_lt msg start
  have l1 := GET_BYTE_lt msg (start + 1)
  have h1 : GET_BYTES msg start 2 &&& 0xFFFF = GET_BYTES msg start 2 % 2 ^ 16 :=
    Nat.and_pow_two_sub_one_eq_mod _ 16
  rw [h1]
  simp [GET_BYTES, List.range, List.range.loop]
  omega

theorem GET_BYTES_4 (msg : CANPacket_t) (start : Nat) :
    GET_BYTES msg start 4 =
      GET_BYTE msg start + 256 * GET_BYTE msg (start + 1) + 65536 * GET_BYTE msg (start + 2) +
        16777216 * GET_BYTE msg (start + 3) := by
  have l0 := GET_BYTE_lt msg start
  have l1 := GET_BYTE_lt msg (start + 1)
  have l2 := GET_BYTE_lt msg (start + 2)
  have l3 := GET_BYTE_lt msg (start + 3)
  simp [GET_BYTES, List.range, List.range.loop]
  omega

theorem GET_BYTES_0_4 (msg : CANPacket_t) :
    GET_BYTES msg 0 4 =
      GET_BYTE msg 0 + 256 * GET_BYTE msg 1 + 65536 * GET_BYTE msg 2 +
        16777216 * GET_BYTE msg 3 := by
  simpa using GET_BYTES_4 msg 0

theorem GET_BYTES_4_4 (msg : CANPacket_t) :
    GET_BYTES msg 4 4 =
      GET_BYTE msg 4 + 256 * GET_BYTE msg 5 + 65536 * GET_BYTE msg 6 +
        16777216 * GET_BYTE msg 7 := by
  simpa using GET_BYTES_4 msg 4

theorem GET_BIT_21 (msg : CANPacket_t) :
    GET_BIT msg 21 = decide (GET_BYTE msg 2 / 32 % 2 = 1) := by
  have h : (GET_BYTE msg 2 >>> 5) &&& 1 = GET_BYTE msg 2 / 32 % 2 := by
    rw [Nat.and_one_is_mod, Nat.shiftRight_eq_div_pow]
  simp only [GET_BIT, show 21 / 8 = 2 from rfl, show 21 % 8 = 5 from rfl, h]
  rcases Nat.mod_two_eq_zero_or_one (GET_BYTE msg 2 / 32) with h0 | h1
  · simp [h0]
  · simp [h1]

/-- The value the receive hook and the transmit hook decode from bytes 3 and 4
is the steering command of the specification. -/
theorem steer_decode_eq (msg : CANPacket_t) :
    (to_signed (((GET_BYTES msg 3 2 &&& 0xFFFF : Nat) : Int)) 16).tdiv 10 = decoded_angle msg := by
  rw [GET_BYTES_2]
  rfl

theorem tdiv_10 (a : Int) : a.tdiv 10 = if 0 ≤ a then a / 10 else -((-a) / 10) := by
  split_ifs with h
  · exact Int.tdiv_eq_ediv h (by decide)
  · have e : a = -(-a) := by omega
    rw [e, Int.neg_tdiv, Int.tdiv_eq_ediv (by omega) (by decide)]
    simp

theorem decoded_angle_range (msg : CANPacket_t) :
    -3276 ≤ decoded_angle msg ∧ decoded_angle msg ≤ 3276 := by
  have l3 := GET_BYTE_lt msg 3
  have l4 := GET_BYTE_lt msg 4
  unfold decoded_angle to_signed
  rw [tdiv_10]
  split_ifs <;> omega

theorem VehicleState.ext_fields {σ : Type} (a b : VehicleState σ)
    (h1 : a.torque_driver = b.torque_driver) (h2 : a.angle_meas = b.angle_meas)
    (h3 : a.gas_pressed = b.gas_pressed) (h4 : a.brake_pressed = b.brake_pressed)
    (h5 : a.vehicle_moving = b.vehicle_moving) (h6 : a.acc_main_on = b.acc_main_on) :
    a = b := by
  cases a
  cases b
  simp_all

theorem rx_torque_driver (σ : Type) (upd : σ → Int → σ) (s : VehicleState σ) (f : CANPacket_t) :
    (byd_rx_hook upd s f).torque_driver =
      if f.bus = 0 ∧ f.addr = 0x1FC then
        upd s.torque_driver
          ((to_signed (((GET_BYTES f 0 2 &&& 0xFFFF : Nat) : Int)) 16).tdiv 10)
      else s.torque_driver := by
  simp only [byd_rx_hook, GET_BUS, GET_ADDR]
  split_ifs <;> simp_all

theorem rx_angle_meas (σ : Type) (upd : σ → Int → σ) (s : VehicleState σ) (f : CANPacket_t) :
    (byd_rx_hook upd s f).angle_meas =
      if f.bus = 0 ∧ f.addr = 0x1E2 then upd s.angle_meas (decoded_angle f)
      else s.angle_meas := by
  simp only [byd_rx_hook, GET_BUS, GET_ADDR, steer_decode_eq]
  split_ifs <;> simp_all

theorem rx_gas_pressed (σ : Type) (upd : σ → Int → σ) (s : VehicleState σ) (f : CANPacket_t) :
    (byd_rx_hook upd s f).gas_pressed =
      if f.bus = 0 ∧ f.addr = 0x342 then decide (GET_BYTE f 0 > 5) else s.gas_pressed := by
  simp only [byd_rx_hook, GET_BUS, GET_ADDR]
  split_ifs <;> simp_all

theorem rx_brake_pressed (σ : Type) (upd : σ → Int → σ) (s : VehicleState σ) (f : CANPacket_t) :
    (byd_rx_hook upd s f).brake_pressed =
      if f.bus = 0 ∧ f.addr = 0x342 then decide (GET_BYTE f 1 > 5) else s.brake_pressed := by
  simp only [byd_rx_hook, GET_BUS, GET_ADDR]
  split_ifs <;> simp_all

theorem rx_vehicle_moving (σ : Type) (upd : σ → Int → σ) (s : VehicleState σ) (f : CANPacket_t) :
    (byd_rx_hook upd s f).vehicle_moving =
      if f.bus = 0 ∧ f.addr = 0x220 then decide (GET_BYTES f 0 2 &&& 0xFFFF > 100)
      else s.vehicle_moving := by
  simp only [byd_rx_hook, GET_BUS, GET_ADDR]
  split_ifs <;> simp_all

theorem rx_acc_main_on (σ : Type) (upd : σ → Int → σ) (s : VehicleState σ) (f : CANPacket_t) :
    (byd_rx_hook upd s f).acc_main_on =
      if f.bus = 0 ∧ f.addr = 0x3B0 ∧ GET_BIT f 19 = true then true else s.acc_main_on := by
  simp only [byd_rx_hook, GET_BUS, GET_ADDR]
  split_ifs <;> simp_all

/-! ## Reading of the transmit hook -/

theorem tx_hook_1E2 (σ χ : Type)
    (checks : Int → Bool → TorqueSteeringLimits → VehicleState σ → χ → Bool × χ)
    (vs : VehicleState σ) (cs : χ) (f : CANPacket_t) (h : f.addr = 0x1E2) :
    byd_tx_hook checks vs cs f =
      (!(checks (decoded_angle f) (GET_BIT f 21) (BYD_LIMITS 300 3 7) vs cs).1,
        (checks (decoded_angle f) (GET_BIT f 21) (BYD_LIMITS 300 3 7) vs cs).2) := by
  simp only [byd_tx_hook, GET_ADDR, h, steer_decode_eq]
  cases hr : (checks (decoded_angle f) (GET_BIT f 21) (BYD_LIMITS 300 3 7) vs cs).1 <;> simp [hr]

theorem tx_hook_not_1E2 (σ χ : Type)
    (checks : Int → Bool → TorqueSteeringLimits → VehicleState σ → χ → Bool × χ)
    (vs : VehicleState σ) (cs : χ) (f : CANPacket_t) (h : f.addr ≠ 0x1E2) :
    byd_tx_hook checks vs cs f =
      (if f.addr = 0x7E0 ∨ f.addr = 0x7E8 then
        decide (GET_BYTES f 0 4 = 0x00803E02 ∧ GET_BYTES f 4 4 = 0)
       else true, cs) := by
  simp only [byd_tx_hook, GET_ADDR, h]
  by_cases hd : f.addr = 0x7E0 ∨ f.addr = 0x7E8
  · by_cases hp : GET_BYTES f 0 4 = 0x00803E02 ∧ GET_BYTES f 4 4 = 0
    · simp [hd, hp]
    · have hn : GET_BYTES f 0 4 ≠ 0x00803E02 ∨ GET_BYTES f 4 4 ≠ 0 := by tauto
      simp [hd, hp, hn]
  · simp [hd]

/-- C11: with a generic checker that honours the absolute cap, every frame
with address 0x1E2 whose decoded command `v` has `|v| > 300` is rejected by
`byd_tx_hook`, for every vehicle state (driver torque included) and every
runtime state of the checker. -/
theorem c11_absolute_steering_cap (σ χ : Type)
    (checks : Int → Bool → TorqueSteeringLimits → VehicleState σ → χ → Bool × χ)
    (hcap : honours_absolute_cap checks)
    (vs : VehicleState σ) (cs : χ) (f : CANPacket_t)
    (h : f.addr = 0x1E2) (hv : 300 < |decoded_angle f|) :
    (byd_tx_hook checks vs cs f).1 = false := by
  rw [tx_hook_1E2 σ χ checks vs cs f h]
  have hm : max_limit_check (decoded_angle f) (BYD_LIMITS 300 3 7).max_torque
      (-(BYD_LIMITS 300 3 7).max_torque) = true := by
    rcases lt_abs.mp hv with h1 | h1
    · simp [max_limit_check, BYD_LIMITS, h1]
    · have h2 : decoded_angle f < -300 := by omega
      simp [max_limit_check, BYD_LIMITS, h2]
  simp [hcap (decoded_angle f) (GET_BIT f 21) (BYD_LIMITS 300 3 7) vs cs hm]

/-- C11 (witness): the cap-only checker and the 0x1E2 frame with bytes 3 and 4
equal to `C2 0B` (raw 3010, command 301). -/
theorem c11_absolute_steering_cap_witness :
    decoded_angle ⟨0x1E2, 0, 8, [0, 0, 0, 0xC2, 0x0B, 0, 0, 0]⟩ = 301 ∧
    (byd_tx_hook cap_only_checks VehicleState.init ()
      ⟨0x1E2, 0, 8, [0, 0, 0, 0xC2, 0x0B, 0, 0, 0]⟩).1 = false :=
  ⟨by decide,
   c11_absolute_steering_cap sample_t Unit cap_only_checks
    (fun _ _ _ _ _ hm => hm) VehicleState.init ()
    ⟨0x1E2, 0, 8, [0, 0, 0, 0xC2, 0x0B, 0, 0, 0]⟩ rfl (by decide)⟩

theorem tester_present_iff (f : CANPacket_t) :
    (GET_BYTES f 0 4 = 0x00803E02 ∧ GET_BYTES f 4 4 = 0) ↔
      ∀ i, i < 8 → GET_BYTE f i = tester_present_bytes.getD i 0 := by
  have l0 := GET_BYTE_lt f 0
  have l1 := GET_BYTE_lt f 1
  have l2 := GET_BYTE_lt f 2
  have l3 := GET_BYTE_lt f 3
  have l4 := GET_BYTE_lt f 4
  have l5 := GET_BYTE_lt f 5
  have l6 := GET_BYTE_lt f 6
  have l7 := GET_BYTE_lt f 7
  rw [GET_BYTES_0_4, GET_BYTES_4_4]
  constructor
  · rintro ⟨h1, h2⟩ i hi
    have hc : i = 0 ∨ i = 1 ∨ i = 2 ∨ i = 3 ∨ i = 4 ∨ i = 5 ∨ i = 6 ∨ i = 7 := by omega
    rcases hc with h | h | h | h | h | h | h | h <;> subst h <;>
      simp [tester_present_bytes] <;> omega
  · intro h
    have e0 := h 0 (by decide)
    have e1 := h 1 (by decide)
    have e2 := h 2 (by decide)
    have e3 := h 3 (by decide)
    have e4 := h 4 (by decide)
    have e5 := h 5 (by decide)
    have e6 := h 6 (by decide)
    have e7 := h 7 (by decide)
    simp [tester_present_bytes] at e0 e1 e2 e3 e4 e5 e6 e7
    omega

/-- C12: for a frame with address 0x7E0 or 0x7E8, `byd_tx_hook` returns true
if and only if the eight payload bytes are `02 3E 80 00 00 00 00 00`, which is
bytes 0..3 read little-endian equal to 0x00803E02 and bytes 4..7 all zero; a
frame that differs from the pattern in some byte is rejected. -/
theorem c12_diagnostic_gate (σ χ : Type)
    (checks : Int → Bool → TorqueSteeringLimits → VehicleState σ → χ → Bool × χ)
    (vs : VehicleState σ) (cs : χ) (f : CANPacket_t)
    (h : f.addr = 0x7E0 ∨ f.addr = 0x7E8) :
    ((byd_tx_hook checks vs cs f).1 = true ↔
      ∀ i, i < 8 → GET_BYTE f i = tester_present_bytes.getD i 0) ∧
    ((∀ i, i < 8 → GET_BYTE f i = tester_present_bytes.getD i 0) ↔
      (GET_BYTE f 0 + 256 * GET_BYTE f 1 + 65536 * GET_BYTE f 2 + 16777216 * GET_BYTE f 3 =
          0x00803E02 ∧
        GET_BYTE f 4 = 0 ∧ GET_BYTE f 5 = 0 ∧ GET_BYTE f 6 = 0 ∧ GET_BYTE f 7 = 0)) ∧
    ((∃ i, i < 8 ∧ GET_BYTE f i ≠ tester_present_bytes.getD i 0) →
      (byd_tx_hook checks vs cs f).1 = false) := by
  have hne : f.addr ≠ 0x1E2 := by rcases h with h | h <;> rw [h] <;> decide
  have htx : (byd_tx_hook checks vs cs f).1 = true ↔
      ∀ i, i < 8 → GET_BYTE f i = tester_present_bytes.getD i 0 := by
    rw [tx_hook_not_1E2 σ χ checks vs cs f hne, ← tester_present_iff]
    simp [h]
  refine ⟨htx, ?_, ?_⟩
  · rw [← tester_present_iff, GET_BYTES_0_4, GET_BYTES_4_4]
    have l4 := GET_BYTE_lt f 4
    have l5 := GET_BYTE_lt f 5
    have l6 := GET_BYTE_lt f 6
    have l7 := GET_BYTE_lt f 7
    constructor
    · rintro ⟨h1, h2⟩
      exact ⟨h1, by omega, by omega, by omega, by omega⟩
    · rintro ⟨h1, h4, h5, h6, h7⟩
      exact ⟨h1, by omega⟩
  · rintro ⟨i, hi, hd⟩
    cases hr : (byd_tx_hook checks vs cs f).1
    · rfl
    · exact absurd (htx.mp hr i hi) hd

/-- C12 (witness): the tester-present payload on 0x7E0 is accepted, and the
same payload with byte 7 changed to `01` is rejected. -/
theorem c12_diagnostic_gate_witness :
    (byd_tx_hook cap_only_checks VehicleState.init ()
      ⟨0x7E0, 0, 8, [0x02, 0x3E, 0x80, 0, 0, 0, 0, 0]⟩).1 = true ∧
    (byd_tx_hook cap_only_checks VehicleState.init ()
      ⟨0x7E0, 0, 8, [0x02, 0x3E, 0x80, 0, 0, 0, 0, 1]⟩).1 = false :=
  ⟨(c12_diagnostic_gate sample_t Unit cap_only_checks VehicleState.init ()
      ⟨0x7E0, 0, 8, [0x02, 0x3E, 0x80, 0, 0, 0, 0, 0]⟩ (Or.inl rfl)).1.mpr (by decide),
   (c12_diagnostic_gate sample_t Unit cap_only_checks VehicleState.init ()
      ⟨0x7E0, 0, 8, [0x02, 0x3E, 0x80, 0, 0, 0, 0, 1]⟩ (Or.inl rfl)).2.2
      ⟨7, by decide, by decide⟩⟩

/-- C13 (counterexample): address 0x999 on bus 0 is not in `BYD_TX_MSGS_LIST`,
yet `byd_tx_hook` returns true for it, here with a payload of `FF` bytes. -/
theorem c13_unlisted_address_accepted :
    tx_msg_listed 0x999 0 = false ∧
    (byd_tx_hook cap_only_checks VehicleState.init ()
      ⟨0x999, 0, 8, [0xFF, 0xFF, 0xFF, 0xFF, 0xFF, 0xFF, 0xFF, 0xFF]⟩).1 = true := by
  decide

/-- C13 (amended): `byd_tx_hook` does not consult `BYD_TX_MSGS_LIST`: for every
frame whose address is none of 0x1E2, 0x7E0, 0x7E8 (for example address 0x999)
it returns true, for every bus, payload, vehicle state and checker. -/
theorem c13_hook_ignores_allow_list (σ χ : Type)
    (checks : Int → Bool → TorqueSteeringLimits → VehicleState σ → χ → Bool × χ)
    (vs : VehicleState σ) (cs : χ) (f : CANPacket_t)
    (h1 : f.addr ≠ 0x1E2) (h2 : f.addr ≠ 0x7E0) (h3 : f.addr ≠ 0x7E8) :
    (byd_tx_hook checks vs cs f).1 = true := by
  rw [tx_hook_not_1E2 σ χ checks vs cs f h1]
  simp [h2, h3]

/-- C13 (witness): address 0x999 on bus 2 with a zero payload. -/
theorem c13_hook_ignores_allow_list_witness :
    tx_msg_listed 0x999 2 = false ∧
    (byd_tx_hook cap_only_checks VehicleState.init ()
      ⟨0x999, 2, 8, [0, 0, 0, 0, 0, 0, 0, 0]⟩).1 = true :=
  ⟨by decide,
   c13_hook_ignores_allow_list sample_t Unit cap_only_checks VehicleState.init ()
    ⟨0x999, 2, 8, [0, 0, 0, 0, 0, 0, 0, 0]⟩ (by decide) (by decide) (by decide)⟩

/-- C14: `BYD_TX_MSGS_LIST` holds exactly the four entries 0x1E2, 0x316, 0x32D,
0x32E, each on bus 0 with length 8, and for every frame with address 0x316 or
0x32D `byd_tx_hook` returns true, for every payload, vehicle state and
checker. -/
theorem c14_allow_list_complete (σ χ : Type)
    (checks : Int → Bool → TorqueSteeringLimits → VehicleState σ → χ → Bool × χ)
    (vs : VehicleState σ) (cs : χ) (f : CANPacket_t)
    (h : f.addr = 0x316 ∨ f.addr = 0x32D) :
    BYD_TX_MSGS_LIST.map (fun m => (m.addr, m.bus, m.len)) =
      [(0x1E2, 0, 8), (0x316, 0, 8), (0x32D, 0, 8), (0x32E, 0, 8)] ∧
    (byd_tx_hook checks vs cs f).1 = true := by
  refine ⟨by decide, ?_⟩
  have hne : f.addr ≠ 0x1E2 := by rcases h with h | h <;> rw [h] <;> decide
  rw [tx_hook_not_1E2 σ χ checks vs cs f hne]
  rcases h with h | h <;> simp [h]

/-- C14 (witness): a 0x316 frame with a payload of `FF` bytes. -/
theorem c14_allow_list_complete_witness :
    (byd_tx_hook cap_only_checks VehicleState.init ()
      ⟨0x316, 0, 8, [0xFF, 0xFF, 0xFF, 0xFF, 0xFF, 0xFF, 0xFF, 0xFF]⟩).1 = true :=
  (c14_allow_list_complete sample_t Unit cap_only_checks VehicleState.init ()
    ⟨0x316, 0, 8, [0xFF, 0xFF, 0xFF, 0xFF, 0xFF, 0xFF, 0xFF, 0xFF]⟩ (Or.inl rfl)).2

/-- C15 (counterexample): the frame 0x1E2 on bus 0 with payload
`00 00 00 64 00 00 00 00` applied once to the initial state leaves the
measured-angle history `[10, 0, 0, 0, 0, 0]`, applied twice it leaves
`[10, 10, 0, 0, 0, 0]`. -/
theorem c15_repeated_frame_not_idempotent :
    (byd_rx_hook update_sample VehicleState.init
      ⟨0x1E2, 0, 8, [0, 0, 0, 0x64, 0, 0, 0, 0]⟩).angle_meas = ⟨[10, 0, 0, 0, 0, 0]⟩ ∧
    (byd_rx_hook update_sample
      (byd_rx_hook update_sample VehicleState.init ⟨0x1E2, 0, 8, [0, 0, 0, 0x64, 0, 0, 0, 0]⟩)
      ⟨0x1E2, 0, 8, [0, 0, 0, 0x64, 0, 0, 0, 0]⟩).angle_meas = ⟨[10, 10, 0, 0, 0, 0]⟩ ∧
    byd_rx_hook update_sample
      (byd_rx_hook update_sample VehicleState.init ⟨0x1E2, 0, 8, [0, 0, 0, 0x64, 0, 0, 0, 0]⟩)
      ⟨0x1E2, 0, 8, [0, 0, 0, 0x64, 0, 0, 0, 0]⟩ ≠
    byd_rx_hook update_sample VehicleState.init ⟨0x1E2, 0, 8, [0, 0, 0, 0x64, 0, 0, 0, 0]⟩ := by
  decide

/-- C15 (amended): a repeated frame leaves `gas_pressed`, `brake_pressed`,
`vehicle_moving` and `acc_main_on` as after the first application, for every
frame; the whole state is as after the first application for every frame that
is not address 0x1FC or 0x1E2 on bus 0; for a 0x1FC (0x1E2) frame on bus 0 the
second application pushes the same decoded value into the driver-torque
(measured-angle) sample once more and leaves the other sample alone. -/
theorem c15_repeated_frame (σ : Type) (upd : σ → Int → σ) (s : VehicleState σ)
    (f : CANPacket_t) :
    ((byd_rx_hook upd (byd_rx_hook upd s f) f).gas_pressed = (byd_rx_hook upd s f).gas_pressed ∧
     (byd_rx_hook upd (byd_rx_hook upd s f) f).brake_pressed =
       (byd_rx_hook upd s f).brake_pressed ∧
     (byd_rx_hook upd (byd_rx_hook upd s f) f).vehicle_moving =
       (byd_rx_hook upd s f).vehicle_moving ∧
     (byd_rx_hook upd (byd_rx_hook upd s f) f).acc_main_on = (byd_rx_hook upd s f).acc_main_on) ∧
    (¬ (f.bus = 0 ∧ (f.addr = 0x1FC ∨ f.addr = 0x1E2)) →
      byd_rx_hook upd (byd_rx_hook upd s f) f = byd_rx_hook upd s f) ∧
    (f.bus = 0 → f.addr = 0x1FC → ∃ v : Int,
      (byd_rx_hook upd s f).torque_driver = upd s.torque_driver v ∧
      (byd_rx_hook upd (byd_rx_hook upd s f) f).torque_driver =
        upd (upd s.torque_driver v) v ∧
      (byd_rx_hook upd (byd_rx_hook upd s f) f).angle_meas = s.angle_meas) ∧
    (f.bus = 0 → f.addr = 0x1E2 →
      (byd_rx_hook upd s f).angle_meas = upd s.angle_meas (decoded_angle f) ∧
      (byd_rx_hook upd (byd_rx_hook upd s f) f).angle_meas =
        upd (upd s.angle_meas (decoded_angle f)) (decoded_angle f) ∧
      (byd_rx_hook upd (byd_rx_hook upd s f) f).torque_driver = s.torque_driver) := by
  have hflags :
      (byd_rx_hook upd (byd_rx_hook upd s f) f).gas_pressed =
        (byd_rx_hook upd s f).gas_pressed ∧
      (byd_rx_hook upd (byd_rx_hook upd s f) f).brake_pressed =
        (byd_rx_hook upd s f).brake_pressed ∧
      (byd_rx_hook upd (byd_rx_hook upd s f) f).vehicle_moving =
        (byd_rx_hook upd s f).vehicle_moving ∧
      (byd_rx_hook upd (byd_rx_hook upd s f) f).acc_main_on =
        (byd_rx_hook upd s f).acc_main_on := by
    refine ⟨?_, ?_, ?_, ?_⟩
    · simp only [rx_gas_pressed]
      split_ifs <;> rfl
    · simp only [rx_brake_pressed]
      split_ifs <;> rfl
    · simp only [rx_vehicle_moving]
      split_ifs <;> rfl
    · simp only [rx_acc_main_on]
      split_ifs <;> rfl
  refine ⟨hflags, ?_, ?_, ?_⟩
  · intro hn
    have h1 : ¬ (f.bus = 0 ∧ f.addr = 0x1FC) := fun h => hn ⟨h.1, Or.inl h.2⟩
    have h2 : ¬ (f.bus = 0 ∧ f.addr = 0x1E2) := fun h => hn ⟨h.1, Or.inr h.2⟩
    apply VehicleState.ext_fields
    · simp only [rx_torque_driver, if_neg h1]
    · simp only [rx_angle_meas, if_neg h2]
    · exact hflags.1
    · exact hflags.2.1
    · exact hflags.2.2.1
    · exact hflags.2.2.2
  · intro hb ha
    have hne : ¬ (f.bus = 0 ∧ f.addr = 0x1E2) := by rw [ha]; simp
    refine ⟨(to_signed (((GET_BYTES f 0 2 &&& 0xFFFF : Nat) : Int)) 16).tdiv 10, ?_, ?_, ?_⟩
    · simp only [rx_torque_driver, if_pos (And.intro hb ha)]
    · simp only [rx_torque_driver, if_pos (And.intro hb ha)]
    · simp only [rx_angle_meas, if_neg hne]
  · intro hb ha
    have hne : ¬ (f.bus = 0 ∧ f.addr = 0x1FC) := by rw [ha]; simp
    refine ⟨?_, ?_, ?_⟩
    · simp only [rx_angle_meas, if_pos (And.intro hb ha)]
    · simp only [rx_angle_meas, if_pos (And.intro hb ha)]
    · simp only [rx_torque_driver, if_neg hne]

/-- C15 (witness): a 0x342 frame on bus 0 applied twice to the initial state
gives the state of one application. -/
theorem c15_repeated_frame_witness :
    byd_rx_hook update_sample
      (byd_rx_hook update_sample VehicleState.init ⟨0x342, 0, 8, [9, 9, 0, 0, 0, 0, 0, 0]⟩)
      ⟨0x342, 0, 8, [9, 9, 0, 0, 0, 0, 0, 0]⟩ =
    byd_rx_hook update_sample VehicleState.init ⟨0x342, 0, 8, [9, 9, 0, 0, 0, 0, 0, 0]⟩ :=
  (c15_repeated_frame sample_t update_sample VehicleState.init
    ⟨0x342, 0, 8, [9, 9, 0, 0, 0, 0, 0, 0]⟩).2.1 (by decide)

/-- C16: two frames with different addresses commute: applying `byd_rx_hook`
with `f1` then `f2` gives the same state as with `f2` then `f1`, for any buses
and payloads. -/
theorem c16_rx_commutes (σ : Type) (upd : σ → Int → σ) (s : VehicleState σ)
    (f1 f2 : CANPacket_t) (h : f1.addr ≠ f2.addr) :
    byd_rx_hook upd (byd_rx_hook upd s f1) f2 = byd_rx_hook upd (byd_rx_hook upd s f2) f1 := by
  apply VehicleState.ext_fields
  · simp only [rx_torque_driver]
    split_ifs <;> simp_all
  · simp only [rx_angle_meas]
    split_ifs <;> simp_all
  · simp only [rx_gas_pressed]
    split_ifs <;> simp_all
  · simp only [rx_brake_pressed]
    split_ifs <;> simp_all
  · simp only [rx_vehicle_moving]
    split_ifs <;> simp_all
  · simp only [rx_acc_main_on]
    split_ifs <;> simp_all

/-- C16 (witness): a driver-torque frame 0x1FC and a steering frame 0x1E2, both
on bus 0, applied to the initial state in either order. -/
theorem c16_rx_commutes_witness :
    byd_rx_hook update_sample
      (byd_rx_hook update_sample VehicleState.init ⟨0x1FC, 0, 8, [0x64, 0, 0, 0, 0, 0, 0, 0]⟩)
      ⟨0x1E2, 0, 8, [0, 0, 0, 0xC8, 0, 0, 0, 0]⟩ =
    byd_rx_hook update_sample
      (byd_rx_hook update_sample VehicleState.init ⟨0x1E2, 0, 8, [0, 0, 0, 0xC8, 0, 0, 0, 0]⟩)
      ⟨0x1FC, 0, 8, [0x64, 0, 0, 0, 0, 0, 0, 0]⟩ :=
  c16_rx_commutes sample_t update_sample VehicleState.init
    ⟨0x1FC, 0, 8, [0x64, 0, 0, 0, 0, 0, 0, 0]⟩ ⟨0x1E2, 0, 8, [0, 0, 0, 0xC8, 0, 0, 0, 0]⟩
    (by decide)

/-- C17: for a frame with address 0x342 on bus 0, after `byd_rx_hook`
`gas_pressed` is true iff payload byte 0 exceeds 5 and `brake_pressed` is true
iff payload byte 1 exceeds 5; each depends on its own byte only, not on the
previous state nor on the other payload bytes. -/
theorem c17_pedal_decoding (σ : Type) (upd : σ → Int → σ) (s : VehicleState σ)
    (f : CANPacket_t) (ha : f.addr = 0x342) (hb : f.bus = 0) :
    ((byd_rx_hook upd s f).gas_pressed = true ↔ GET_BYTE f 0 > 5) ∧
    ((byd_rx_hook upd s f).brake_pressed = true ↔ GET_BYTE f 1 > 5) ∧
    (∀ (s' : VehicleState σ) (f' : CANPacket_t), f'.addr = 0x342 → f'.bus = 0 →
      GET_BYTE f' 0 = GET_BYTE f 0 →
      (byd_rx_hook upd s' f').gas_pressed = (byd_rx_hook upd s f).gas_pressed) ∧
    (∀ (s' : VehicleState σ) (f' : CANPacket_t), f'.addr = 0x342 → f'.bus = 0 →
      GET_BYTE f' 1 = GET_BYTE f 1 →
      (byd_rx_hook upd s' f').brake_pressed = (byd_rx_hook upd s f).brake_pressed) := by
  refine ⟨?_, ?_, ?_, ?_⟩
  · rw [rx_gas_pressed, if_pos (And.intro hb ha)]
    simp
  · rw [rx_brake_pressed, if_pos (And.intro hb ha)]
    simp
  · intro s' f' ha' hb' h0
    rw [rx_gas_pressed, rx_gas_pressed, if_pos (And.intro hb ha), if_pos (And.intro hb' ha'), h0]
  · intro s' f' ha' hb' h1
    rw [rx_brake_pressed, rx_brake_pressed, if_pos (And.intro hb ha),
      if_pos (And.intro hb' ha'), h1]

/-- C17 (witness): gas byte 6 and brake byte 5: gas is pressed, brake is
not. -/
theorem c17_pedal_decoding_witness :
    (byd_rx_hook update_sample VehicleState.init
      ⟨0x342, 0, 8, [6, 5, 0xFF, 0xFF, 0xFF, 0xFF, 0xFF, 0xFF]⟩).gas_pressed = true ∧
    (byd_rx_hook update_sample VehicleState.init
      ⟨0x342, 0, 8, [6, 5, 0xFF, 0xFF, 0xFF, 0xFF, 0xFF, 0xFF]⟩).brake_pressed = false := by
  have h := c17_pedal_decoding sample_t update_sample VehicleState.init
    ⟨0x342, 0, 8, [6, 5, 0xFF, 0xFF, 0xFF, 0xFF, 0xFF, 0xFF]⟩ rfl rfl
  refine ⟨h.1.mpr (by decide), ?_⟩
  cases hbr : (byd_rx_hook update_sample VehicleState.init
      ⟨0x342, 0, 8, [6, 5, 0xFF, 0xFF, 0xFF, 0xFF, 0xFF, 0xFF]⟩).brake_pressed
  · rfl
  · exact absurd (h.2.1.mp hbr) (by decide)

/-- C18: for a frame with address 0x1E2, `byd_tx_hook` returns false iff the
checker reports a violation when called with the decoded command, the request
flag equal to bit 21 of the payload (bit 5 of byte 2) and the limits
max_torque 300, max_rate_up 3, max_rate_down 7, max_rt_delta 375,
driver_torque_allowance 68, driver_torque_multiplier 3,
min_valid_request_frames 1, max_invalid_request_frames 1,
min_valid_request_rt_interval 250000, has_steer_req_tolerance false; the
checker is an arbitrary function. -/
theorem c18_steering_delegation (σ χ : Type)
    (checks : Int → Bool → TorqueSteeringLimits → VehicleState σ → χ → Bool × χ)
    (vs : VehicleState σ) (cs : χ) (f : CANPacket_t) (h : f.addr = 0x1E2) :
    ((byd_tx_hook checks vs cs f).1 = false ↔
      (checks (decoded_angle f) (decide (GET_BYTE f 2 / 32 % 2 = 1))
        stated_steering_limits vs cs).1 = true) ∧
    (byd_tx_hook checks vs cs f).2 =
      (checks (decoded_angle f) (decide (GET_BYTE f 2 / 32 % 2 = 1))
        stated_steering_limits vs cs).2 ∧
    GET_BIT f 21 = decide (GET_BYTE f 2 / 32 % 2 = 1) := by
  have hl : BYD_LIMITS 300 3 7 = stated_steering_limits := rfl
  rw [tx_hook_1E2 σ χ checks vs cs f h, GET_BIT_21, hl]
  refine ⟨?_, rfl, rfl⟩
  cases (checks (decoded_angle f) (decide (GET_BYTE f 2 / 32 % 2 = 1))
    stated_steering_limits vs cs).1 <;> simp

/-- C18 (witness): with the cap-only checker, the 0x1E2 frame carrying command
300 with the request bit set is not a violation and is accepted. -/
theorem c18_steering_delegation_witness :
    decoded_angle ⟨0x1E2, 0, 8, [0, 0, 0x20, 0xB8, 0x0B, 0, 0, 0]⟩ = 300 ∧
    (byd_tx_hook cap_only_checks VehicleState.init ()
      ⟨0x1E2, 0, 8, [0, 0, 0x20, 0xB8, 0x0B, 0, 0, 0]⟩).1 = true := by
  have h := (c18_steering_delegation sample_t Unit cap_only_checks VehicleState.init ()
    ⟨0x1E2, 0, 8, [0, 0, 0x20, 0xB8, 0x0B, 0, 0, 0]⟩ rfl).1
  refine ⟨by decide, ?_⟩
  cases hr : (byd_tx_hook cap_only_checks VehicleState.init ()
      ⟨0x1E2, 0, 8, [0, 0, 0x20, 0xB8, 0x0B, 0, 0, 0]⟩).1
  · exact absurd (h.mp hr) (by decide)
  · rfl

/-- C19: `byd_compute_checksum` is at most 15 for every frame; a frame with a
known-layout address whose transmitted checksum equals the computed one has
byte 7 below 16; and such a frame with address 0x220 has counter 0. -/
theorem c19_checksum_range (m : CANPacket_t) :
    byd_compute_checksum m ≤ 15 ∧
    ((m.addr = 0x1FC ∨ m.addr = 0x1E2 ∨ m.addr = 0x342 ∨ m.addr = 0x220 ∨ m.addr = 0x3B0) →
      byd_get_checksum m = byd_compute_checksum m → GET_BYTE m 7 < 16) ∧
    (m.addr = 0x220 → byd_get_checksum m = byd_compute_checksum m → byd_get_counter m = 0) := by
  have hc : byd_compute_checksum m ≤ 15 := by
    rw [byd_compute_checksum_unfold]
    omega
  refine ⟨hc, ?_, ?_⟩
  · intro hk he
    rw [get_checksum_known m hk] at he
    omega
  · intro ha he
    rw [get_checksum_known m (by simp [ha])] at he
    rw [get_counter_val, if_neg (by rw [ha]; decide), if_pos ha]
    omega

/-- C19 (witness): the 0x220 frame `02 00 00 00 00 00 00 07` carries the
checksum that is computed for it, 7, and its counter is 0. -/
theorem c19_checksum_range_witness :
    byd_compute_checksum ⟨0x220, 0, 8, [2, 0, 0, 0, 0, 0, 0, 7]⟩ = 7 ∧
    byd_get_counter ⟨0x220, 0, 8, [2, 0, 0, 0, 0, 0, 0, 7]⟩ = 0 :=
  ⟨by decide,
   (c19_checksum_range ⟨0x220, 0, 8, [2, 0, 0, 0, 0, 0, 0, 7]⟩).2.2 rfl (by decide)⟩

/-- C20: for a 0x1E2 frame on bus 0, `byd_rx_hook` pushes the decoded command
into the measured-angle sample; for a 0x1E2 frame with the same payload,
`byd_tx_hook` calls the checker with that same value; the value is
`to_signed(byte3 + 256 * byte4, 16) / 10` and lies in [-3276, 3276]. -/
theorem c20_angle_same_field (σ χ : Type) (upd : σ → Int → σ)
    (checks : Int → Bool → TorqueSteeringLimits → VehicleState σ → χ → Bool × χ)
    (s vs : VehicleState σ) (cs : χ) (f g : CANPacket_t)
    (hf : f.addr = 0x1E2) (hfb : f.bus = 0) (hg : g.addr = 0x1E2)
    (hbytes : ∀ i, i < 8 → GET_BYTE g i = GET_BYTE f i) :
    (byd_rx_hook upd s f).angle_meas = upd s.angle_meas (decoded_angle f) ∧
    byd_tx_hook checks vs cs g =
      (!(checks (decoded_angle f) (GET_BIT g 21) (BYD_LIMITS 300 3 7) vs cs).1,
        (checks (decoded_angle f) (GET_BIT g 21) (BYD_LIMITS 300 3 7) vs cs).2) ∧
    decoded_angle f =
      (to_signed ((GET_BYTE f 3 + 256 * GET_BYTE f 4 : Nat) : Int) 16).tdiv 10 ∧
    -3276 ≤ decoded_angle f ∧ decoded_angle f ≤ 3276 := by
  have hd : decoded_angle g = decoded_angle f := by
    unfold decoded_angle
    rw [hbytes 3 (by decide), hbytes 4 (by decide)]
  refine ⟨?_, ?_, rfl, decoded_angle_range f⟩
  · rw [rx_angle_meas, if_pos (And.intro hfb hf)]
  · rw [tx_hook_1E2 σ χ checks vs cs g hg, hd]

/-- C20 (witness): with an update that keeps the pushed value and a checker
that records the value it is called with, the payload `00 00 00 9C FF 00 00 00`
(raw 0xFF9C, that is -100) gives -10 on both paths. -/
theorem c20_angle_same_field_witness :
    (byd_rx_hook (fun (_ : Int) (v : Int) => v) ⟨0, 0, false, false, false, false⟩
      ⟨0x1E2, 0, 8, [0, 0, 0, 0x9C, 0xFF, 0, 0, 0]⟩).angle_meas = -10 ∧
    (byd_tx_hook (fun v _ _ (_ : VehicleState Int) (_ : Int) => (false, v))
      ⟨0, 0, false, false, false, false⟩ 0
      ⟨0x1E2, 0, 8, [0, 0, 0, 0x9C, 0xFF, 0, 0, 0]⟩).2 = -10 := by
  have h := c20_angle_same_field Int Int (fun _ v => v) (fun v _ _ _ _ => (false, v))
    ⟨0, 0, false, false, false, false⟩ ⟨0, 0, false, false, false, false⟩ 0
    ⟨0x1E2, 0, 8, [0, 0, 0, 0x9C, 0xFF, 0, 0, 0]⟩ ⟨0x1E2, 0, 8, [0, 0, 0, 0x9C, 0xFF, 0, 0, 0]⟩
    rfl rfl rfl (fun _ _ => rfl)
  have hv : decoded_angle ⟨0x1E2, 0, 8, [0, 0, 0, 0x9C, 0xFF, 0, 0, 0]⟩ = -10 := by decide
  refine ⟨?_, ?_⟩
  · rw [h.1, hv]
  · rw [h.2.1, hv]

end Byd
